import Mathlib

/-!
# Verification of the Host Execution & Inventory Cache subsystem

Shallow embedding of the core of the kvm-dashboard repository:

* `LibvirtRemote._run` retry loop (`src/dashboard/app/libvirt_remote.py`, lines 39-68)
* the spawn-concurrency semaphore protocol of `_run` / `_get_semaphore`
* `LibvirtRemote.list_vms` dominfo parsing (lines 74-104)
* `LibvirtRemote._disk_source_from_image` / `create_vm` (lines 116-195)
* write operations `resize`, `snapshot_create`, `attach_iso`, `detach_iso`
* `console_service.build_console_urls` / `_display_host_port`
* `main.vm_console` console-session reuse (`src/dashboard/app/main.py`, lines 1126-1176)
* `LibvirtCacheStore.refresh` / `get` (`src/dashboard/app/libvirt_cache.py`)

External effects are made explicit: the external `virsh` process is an oracle
function, clock reads are parameters, the database row is a host-keyed map,
and fresh UUIDs are parameters.  Machine floats (timestamps) are modelled as
rationals.  JSON round-tripping (`json.dumps` / `json.loads` applied to the
same data) is modelled by carrying the serialized representation itself.
-/

namespace KvmDashboard

/-! ## String utilities (models of the Python primitives used by the source) -/

/-- Model of list-prefix removal: `some rest` when `p` is a prefix of `l`. -/
def dropPref? : List Char → List Char → Option (List Char)
  | [], l => some l
  | _ :: _, [] => none
  | p :: ps, c :: cs => if p = c then dropPref? ps cs else none

/-- Model of Python's `needle in hay` contiguous-substring test on strings,
over the character lists. -/
def isSubList (needle : List Char) : List Char → Bool
  | [] => needle.isEmpty
  | c :: rest => (dropPref? needle (c :: rest)).isSome || isSubList needle rest

/-- Model of Python's `needle in hay` on strings. -/
def strContains (hay needle : String) : Bool :=
  isSubList needle.toList hay.toList

/-- Model of Python's `str.strip()` with no argument: remove leading and
trailing whitespace. -/
def pyStrip (s : String) : String :=
  String.mk (((s.toList.dropWhile Char.isWhitespace).reverse.dropWhile
    Char.isWhitespace).reverse)

/-- Model of `str.lower()` (the inputs at hand are ASCII). -/
def pyLower (s : String) : String :=
  String.mk (s.toList.map Char.toLower)

/-- Model of `str.startswith(p)`. -/
def pyStartsWith (s p : String) : Bool :=
  (dropPref? p.toList s.toList).isSome

/-- Split a character list at every newline. -/
def splitOnNl : List Char → List (List Char)
  | [] => [[]]
  | c :: rest =>
    let r := splitOnNl rest
    if c = '\n' then [] :: r
    else
      match r with
      | [] => [[c]]
      | h :: t => (c :: h) :: t

/-- Model of `str.splitlines` for the `\n`-separated text `virsh` emits
(up to a trailing empty entry after a final newline, which every use site
filters out or skips). -/
def splitLines (s : String) : List String :=
  (splitOnNl s.toList).map String.mk

/-- Accumulator form of whitespace-run splitting. -/
def wordsAux : List Char → List Char → List (List Char)
  | acc, [] => if acc.isEmpty then [] else [acc.reverse]
  | acc, c :: rest =>
    if c.isWhitespace then
      if acc.isEmpty then wordsAux [] rest else acc.reverse :: wordsAux [] rest
    else wordsAux (c :: acc) rest

/-- Model of Python's no-argument `str.split()`: split on whitespace runs,
dropping empty pieces. -/
def splitWs (s : String) : List String :=
  (wordsAux [] s.toList).map String.mk

/-- Numeric value of a list of decimal digits (the `int()` applied to a
`\d+` capture). -/
def digitsToNat (ds : List Char) : Nat :=
  ds.foldl (fun n c => n * 10 + (c.toNat - 48)) 0

/-! ## Command Executor: the retry loop of `LibvirtRemote._run`

`libvirt_remote.py` lines 45-66: inside the semaphore, up to
`retry_count + 1` attempts run `subprocess.check_output`; only a
`CalledProcessError` whose (stripped, defaulted) output contains the
fork-exhaustion marker and which is not the last attempt leads to a sleep
and another attempt.  One subprocess attempt is an oracle value. -/

/-- Outcome of one `subprocess.check_output` attempt. -/
inductive ProcOutcome where
  | ok (stdout : String)
  | toolMissing
  | timedOut
  | procFailure (raw : String)
  deriving DecidableEq, Repr

/-- The typed failure `_run` surfaces (all become `LibvirtRemoteError`
messages in the source; the constructor records which branch raised). -/
inductive RunError where
  | queueSaturated
  | notInstalled
  | outOfTime
  | failed (output : String)
  deriving DecidableEq, Repr

/-- Model of `exc.output.strip() or "virsh command failed"` (line 62). -/
def procOutput (raw : String) : String :=
  if pyStrip raw = "" then "virsh command failed" else pyStrip raw

/-- The fork-exhaustion marker string of line 63. -/
def forkMarker : String := "cannot fork child process"

/-- Result of the `_run` attempt loop together with the number of subprocess
invocations actually made and the number of `time.sleep` calls. -/
structure RunTrace where
  result : Except RunError String
  attemptsUsed : Nat
  sleeps : Nat
  deriving Repr

/-- The `for attempt in range(attempts)` loop of `_run` (lines 46-66),
starting at attempt index `attempt`; `oracle i` is the outcome of the
subprocess invocation of attempt `i`. -/
def runLoop (oracle : Nat → ProcOutcome) (attempts : Nat) (attempt : Nat) : RunTrace :=
  match oracle attempt with
  | .ok out => { result := .ok (pyStrip out), attemptsUsed := 1, sleeps := 0 }
  | .toolMissing => { result := .error .notInstalled, attemptsUsed := 1, sleeps := 0 }
  | .timedOut => { result := .error .outOfTime, attemptsUsed := 1, sleeps := 0 }
  | .procFailure raw =>
    let output := procOutput raw
    if h : strContains output forkMarker = true ∧ attempt < attempts - 1 then
      let rest := runLoop oracle attempts (attempt + 1)
      { result := rest.result, attemptsUsed := rest.attemptsUsed + 1, sleeps := rest.sleeps + 1 }
    else
      { result := .error (.failed output), attemptsUsed := 1, sleeps := 0 }
termination_by attempts - attempt
decreasing_by
  exact Nat.sub_lt_sub_left (Nat.lt_of_lt_of_le h.2 (Nat.sub_le attempts 1)) (Nat.lt_succ_self attempt)

/-- Model of `_run`'s attempt loop entered with `attempts = self.retry_count + 1`
(line 46). -/
def runAttempts (retry_count : Nat) (oracle : Nat → ProcOutcome) : RunTrace :=
  runLoop oracle (retry_count + 1) 0

/-! ## Command Executor: the spawn semaphore of `_run`

`libvirt_remote.py` lines 31-44 and 67-68: one `threading.BoundedSemaphore`
of size `max_concurrency` (all endpoints of a process read the same
environment-derived size, so `_get_semaphore` returns the same semaphore) is
acquired with a timeout before spawning and released in `finally`.  We model
the protocol as a transition system over thread phases: a caller waits for a
permit, then (holding it) may spawn the external process one or more times
(the retry loop re-spawns under the same permit), and finally releases. -/

/-- Global state of the semaphore protocol: `permits` is the semaphore
counter, `waiting` counts callers before `semaphore.acquire`, `acquired`
counts callers holding a permit with no process running, `running` counts
external processes currently running. -/
structure SemState where
  permits : Nat
  waiting : Nat
  acquired : Nat
  running : Nat
  deriving DecidableEq, Repr

/-- One step of the `_run` semaphore protocol. -/
inductive SemStep : SemState → SemState → Prop
  /-- Model of `semaphore.acquire(timeout=...)` succeeds (line 43): needs a permit. -/
  | acquireOk (s : SemState) (hp : 0 < s.permits) (hw : 0 < s.waiting) :
      SemStep s ⟨s.permits - 1, s.waiting - 1, s.acquired + 1, s.running⟩
  /-- the acquire times out (line 43-44): the caller raises `QueueSaturated`
  without ever holding a permit. -/
  | saturate (s : SemState) (hw : 0 < s.waiting) :
      SemStep s ⟨s.permits, s.waiting - 1, s.acquired, s.running⟩
  /-- Model of `subprocess.check_output` spawns the external process (line 49),
  only while holding a permit. -/
  | spawn (s : SemState) (ha : 0 < s.acquired) :
      SemStep s ⟨s.permits, s.waiting, s.acquired - 1, s.running + 1⟩
  /-- the external process exits (or is killed on timeout); the caller still
  holds the permit (it may retry and spawn again, lines 63-65). -/
  | finish (s : SemState) (hr : 0 < s.running) :
      SemStep s ⟨s.permits, s.waiting, s.acquired + 1, s.running - 1⟩
  /-- Model of `semaphore.release()` in the `finally` block (line 68), on every exit
  path of the attempt loop. -/
  | release (s : SemState) (ha : 0 < s.acquired) :
      SemStep s ⟨s.permits + 1, s.waiting, s.acquired - 1, s.running⟩

/-- States reachable when `m` callers contend for a semaphore of size `n`. -/
inductive SemReach (n m : Nat) : SemState → Prop
  | init : SemReach n m ⟨n, m, 0, 0⟩
  | step {s t : SemState} : SemReach n m s → SemStep s t → SemReach n m t

/-! ## Domain Mapper: `list_vms` parsing (`libvirt_remote.py` lines 74-104)

The three `re.search` patterns of lines 79-81 are embedded as scanners over
the character list; `re.search` tries the pattern at each successive start
position, which `searchPat` mirrors. -/

/-- Try a pattern at every start position of the text, first match wins
(the semantics of `re.search`). -/
def searchPat {α : Type} (pat : List Char → Option α) : List Char → Option α
  | [] => none
  | c :: rest =>
    match pat (c :: rest) with
    | some a => some a
    | none => searchPat pat rest

/-- Pattern `LBL\s+(\d+)` at one start position: the literal label, then at
least one whitespace character (`\s+` is greedy and no digit is whitespace,
so only the maximal run can be followed by a digit), then a maximal nonempty
digit run, returned as a number. -/
def patLabelNum (lbl : List Char) (l : List Char) : Option Nat :=
  match dropPref? lbl l with
  | none => none
  | some rest =>
    let ws := rest.takeWhile Char.isWhitespace
    if ws.isEmpty then none
    else
      let ds := (rest.drop ws.length).takeWhile Char.isDigit
      if ds.isEmpty then none else some (digitsToNat ds)

/-- Pattern `Max memory:\s+(\d+)\s+KiB` at one start position (line 80):
label, whitespace, digits, whitespace, the literal `KiB`. -/
def patMemKib (l : List Char) : Option Nat :=
  match dropPref? "Max memory:".toList l with
  | none => none
  | some rest =>
    let ws₁ := rest.takeWhile Char.isWhitespace
    if ws₁.isEmpty then none
    else
      let r₂ := rest.drop ws₁.length
      let ds := r₂.takeWhile Char.isDigit
      if ds.isEmpty then none
      else
        let r₃ := r₂.drop ds.length
        let ws₂ := r₃.takeWhile Char.isWhitespace
        if ws₂.isEmpty then none
        else if (dropPref? "KiB".toList (r₃.drop ws₂.length)).isSome then
          some (digitsToNat ds)
        else none

/-- Backtracking of `\s+(.+)`: `\s+` greedily takes `j` whitespace
characters (largest `j` first, `j ≥ 1`) such that the next character exists
and is not a newline (`.` never matches `\n`); the capture is then the
maximal newline-free run from there. -/
def stateCapture (rest : List Char) : Nat → Option (List Char)
  | 0 => none
  | j + 1 =>
    match rest.drop (j + 1) with
    | [] => stateCapture rest j
    | c :: cs =>
      if c = '\n' then stateCapture rest j
      else some ((c :: cs).takeWhile (· ≠ '\n'))

/-- Pattern `State:\s+(.+)` at one start position (line 81). -/
def patStateRaw (l : List Char) : Option (List Char) :=
  match dropPref? "State:".toList l with
  | none => none
  | some rest =>
    let m := (rest.takeWhile Char.isWhitespace).length
    stateCapture rest m

/-- Model of `re.search(r"CPU\(s\):\s+(\d+)", info)` of line 79. -/
def searchCpu (info : String) : Option Nat :=
  searchPat (patLabelNum "CPU(s):".toList) info.toList

/-- Model of `re.search(r"Max memory:\s+(\d+)\s+KiB", info)` of line 80. -/
def searchMemKib (info : String) : Option Nat :=
  searchPat patMemKib info.toList

/-- Model of `re.search(r"State:\s+(.+)", info)`, capture lower-cased (line 81). -/
def searchStateRaw (info : String) : Option String :=
  (searchPat patStateRaw info.toList).map fun cs => pyLower (String.mk cs)

/-- Model of `state_raw` with the `"unknown"` default of line 81. -/
def stateRawOf (info : String) : String :=
  (searchStateRaw info).getD "unknown"

/-- The power-state classification of line 82: substring precedence
`running` > `paused` > else `stopped`. -/
def powerOf (stateRaw : String) : String :=
  if strContains stateRaw "running" then "running"
  else if strContains stateRaw "paused" then "paused"
  else "stopped"

/-- The external-tool oracle a Domain Mapper operation runs against: each
`self._run(args)` call is one application, returning the trimmed output or
the message of the `LibvirtRemoteError` it raised (the mapper layer only
ever observes that one exception class). -/
def Exec : Type := List String → Except String String

/-- One record of the `list_vms` result (the dict of lines 92-103). -/
structure VmRow where
  vm_id : String
  name : String
  cpu_cores : Nat
  memory_mb : Nat
  image : String
  power_state : String
  networks : List String
  labels : List (String × String)
  annotations_map : List (String × String)
  created_at : String
  deriving DecidableEq, Repr

/-- The per-name body of the `list_vms` loop (lines 77-103): fetch
`dominfo`, extract the fields with their defaults, best-effort fetch
`domiflist`. -/
def vmRowFor (exec : Exec) (uri now name : String) : Except String VmRow := do
  let info ← exec ["dominfo", name]
  let cpu := (searchCpu info).getD 0
  let memKib := (searchMemKib info).getD 0
  let stateRaw := stateRawOf info
  let power := powerOf stateRaw
  let nets : List String :=
    match exec ["domiflist", name] with
    | .ok nout =>
      ((splitLines nout).drop 2).filterMap fun line =>
        let parts := splitWs line
        if parts.length ≥ 3 then parts.get? 2 else none
    | .error _ => []
  pure {
    vm_id := name
    name := name
    cpu_cores := cpu
    memory_mb := memKib / 1024
    image := "libvirt:" ++ name
    power_state := power
    networks := nets
    labels := [("executor", "libvirt-direct")]
    annotations_map := [("libvirt_uri", uri)]
    created_at := now
  }

/-- Model of `LibvirtRemote.list_vms` (lines 74-104). -/
def list_vms (exec : Exec) (uri now : String) : Except String (List VmRow) := do
  let out ← exec ["list", "--all", "--name"]
  let names := ((splitLines out).map pyStrip).filter (· ≠ "")
  names.mapM (vmRowFor exec uri now)

/-! ## Domain Mapper: disk-source resolution and `create_vm`
(`libvirt_remote.py` lines 116-195) -/

/-- Model of `str.partition(sep)` restricted to its first two components: the text
before the first occurrence of `sep` and the text after it (`(s, "")` when
`sep` does not occur). -/
def partitionAt (s sep : String) : String × String :=
  go [] s.toList
where
  go (acc : List Char) (l : List Char) : String × String :=
    match l with
    | [] => (s, "")
    | c :: rest =>
      if (dropPref? sep.toList l).isSome then
        (String.mk acc.reverse, String.mk (l.drop sep.length))
      else go (c :: acc) rest

/-- The shared tail of `_disk_source_from_image` (lines 127-133): absolute
paths resolve to themselves, anything else is looked up as a volume of the
default pool, failure degrading to `""`. -/
def diskSourceTail (exec : Exec) (default_pool image : String) : String :=
  if pyStartsWith image "/" then image
  else
    match exec ["vol-path", image, "--pool", default_pool] with
    | .ok p => p
    | .error _ => ""

/-- Model of `LibvirtRemote._disk_source_from_image` (lines 116-133). -/
def _disk_source_from_image (exec : Exec) (default_pool image : String) : String :=
  let image := pyStrip image
  if image = "" then ""
  else if strContains image "::" then
    let (pool, vol) := partitionAt image "::"
    if pool ≠ "" ∧ vol ≠ "" then
      match exec ["vol-path", vol, "--pool", pool] with
      | .ok p => p
      | .error _ => ""
    else diskSourceTail exec default_pool image
  else diskSourceTail exec default_pool image

/-- The observable result of `create_vm` (lines 185-195): the returned
record; `disk_source` is `None` exactly when resolution produced `""`, and
the synthesized domain descriptor carries a disk device exactly when it did
not (lines 137-141). -/
structure CreateVmResult where
  vm_id : String
  name : String
  cpu_cores : Nat
  memory_mb : Nat
  image : String
  power_state : String
  networks : List String
  disk_source : Option String
  hasDiskDevice : Bool
  deriving DecidableEq, Repr

/-- Model of `LibvirtRemote.create_vm` (lines 135-195): resolve the disk source,
synthesize the descriptor (with a disk element only for a nonempty path),
run `define` on it, and return the record.  `tmpName` stands for the
temporary descriptor file's name. -/
def create_vm (exec : Exec) (default_pool tmpName : String)
    (name : String) (cpu_cores memory_mb : Nat) (image : String)
    (network : String) : Except String CreateVmResult := do
  let disk_path := _disk_source_from_image exec default_pool image
  let _ ← exec ["define", tmpName]
  pure {
    vm_id := name
    name := name
    cpu_cores := cpu_cores
    memory_mb := memory_mb
    image := image
    power_state := "stopped"
    networks := [network]
    disk_source := if disk_path = "" then none else some disk_path
    hasDiskDevice := disk_path ≠ ""
  }

/-! ## Domain Mapper: write operations (`libvirt_remote.py` lines 203-290)

Each operation is embedded together with the list of `_run` invocations it
actually issued (in order), so that statements about operation-level retry
are expressible: a duplicate-free invocation log means no invocation was
re-issued by the operation. -/

/-- Model of `LibvirtRemote.resize` (lines 203-206): three sequential invocations,
any failure propagating. -/
def resize (exec : Exec) (vm_id : String) (cpu mem_mb : Nat) :
    Except String Unit × List (List String) :=
  let a₁ := ["setvcpus", vm_id, toString cpu, "--live", "--config"]
  let a₂ := ["setmaxmem", vm_id, toString (mem_mb * 1024), "--config"]
  let a₃ := ["setmem", vm_id, toString (mem_mb * 1024), "--live"]
  match exec a₁ with
  | .error e => (.error e, [a₁])
  | .ok _ =>
    match exec a₂ with
    | .error e => (.error e, [a₁, a₂])
    | .ok _ =>
      match exec a₃ with
      | .error e => (.error e, [a₁, a₂, a₃])
      | .ok _ => (.ok (), [a₁, a₂, a₃])

/-- Model of `LibvirtRemote.snapshot_create` (lines 215-217): one invocation, failure
propagating; `now` is the ISO timestamp of the returned record. -/
def snapshot_create (exec : Exec) (vm_id name now : String) :
    Except String (List (String × String)) × List (List String) :=
  let a := ["snapshot-create-as", vm_id, name, "--atomic"]
  match exec a with
  | .error e => (.error e, [a])
  | .ok _ =>
    (.ok [("snapshot_id", name), ("vm_id", vm_id), ("name", name), ("created_at", now)], [a])

/-- Result record of `attach_iso` (line 277). -/
structure AttachResult where
  vm_id : String
  iso_path : String
  boot_once : Bool
  attached : Bool
  deriving DecidableEq, Repr

/-- Result record of `detach_iso` (lines 287, 290). -/
structure DetachResult where
  vm_id : String
  detached : Bool
  deriving DecidableEq, Repr

/-- Model of `LibvirtRemote.attach_iso` (lines 263-277): try `change-media`, fall
back to `attach-disk`; raise (wrapping the last error) only when both
fail. -/
def attach_iso (exec : Exec) (vm_id iso_path : String) (boot_once : Bool) :
    Except String AttachResult × List (List String) :=
  let c₁ := ["change-media", vm_id, "hdb", "--insert", iso_path, "--live", "--config"]
  let c₂ := ["attach-disk", vm_id, iso_path, "hdb", "--type", "cdrom", "--mode", "readonly",
             "--live", "--config"]
  match exec c₁ with
  | .ok _ => (.ok ⟨vm_id, iso_path, boot_once, true⟩, [c₁])
  | .error _ =>
    match exec c₂ with
    | .ok _ => (.ok ⟨vm_id, iso_path, boot_once, true⟩, [c₁, c₂])
    | .error e => (.error ("failed to attach iso: " ++ e), [c₁, c₂])

/-- Model of `LibvirtRemote.detach_iso` (lines 279-290): try `change-media --eject`,
fall back to `detach-disk`; when both fail, return `detached = False`
without raising. -/
def detach_iso (exec : Exec) (vm_id : String) :
    Except String DetachResult × List (List String) :=
  let c₁ := ["change-media", vm_id, "hdb", "--eject", "--live", "--config"]
  let c₂ := ["detach-disk", vm_id, "hdb", "--live", "--config"]
  match exec c₁ with
  | .ok _ => (.ok ⟨vm_id, true⟩, [c₁])
  | .error _ =>
    match exec c₂ with
    | .ok _ => (.ok ⟨vm_id, true⟩, [c₁, c₂])
    | .error _ => (.ok ⟨vm_id, false⟩, [c₁, c₂])

/-! ## Console Session Broker: `console_service.py` and `main.vm_console`

`_display_host_port` relies on `urllib.parse.urlparse`; the hostname/port
extraction is embedded below for URIs without userinfo or IPv6 brackets
(the shapes `virsh domdisplay` emits).  A non-numeric or out-of-range port
raises an uncaught `ValueError` in the source; such URIs are outside this
model's scope (treated as having no usable port) and no theorem below
instantiates one. -/

/-- Split at the first occurrence of `sep`: `some (before, after)`, `none`
when `sep` does not occur. -/
def breakFirst? (sep : String) (s : String) : Option (String × String) :=
  go [] s.toList
where
  go (acc : List Char) (l : List Char) : Option (String × String) :=
    match l with
    | [] => none
    | c :: rest =>
      if (dropPref? sep.toList l).isSome then
        some (String.mk acc.reverse, String.mk (l.drop sep.toList.length))
      else go (c :: acc) rest

/-- Characters `urllib` accepts inside a URL scheme. -/
def schemeChar (c : Char) : Bool :=
  c.isAlphanum || c = '+' || c = '-' || c = '.'

/-- The URL with a leading valid `scheme:` removed (`urlparse` splits the
scheme only when the text before the first `:` is a valid scheme name). -/
def restAfterScheme (uri : String) : String :=
  match breakFirst? ":" uri with
  | none => uri
  | some (sch, rest) =>
    if sch ≠ "" ∧ (sch.toList.headD 'a').isAlpha = true ∧ sch.toList.all schemeChar = true
    then rest else uri

/-- The netloc component: present only when (after the scheme) the URL
starts with `//`; it extends to the next `/`, `?` or `#`. -/
def netlocOf (uri : String) : Option String :=
  let rest := restAfterScheme uri
  if pyStartsWith rest "//" then
    some (String.mk ((rest.drop 2).toList.takeWhile fun c => c ≠ '/' ∧ c ≠ '?' ∧ c ≠ '#'))
  else none

/-- The characters after the last `@` (the whole list when `@` is absent):
`urllib` strips userinfo this way. -/
def afterLastAt (l : List Char) : List Char :=
  (l.reverse.takeWhile (· ≠ '@')).reverse

/-- Model of `urlparse(...).hostname` and `.port` for bracket-free netlocs: hostname
is the (lower-cased) text before the first `:`, `None` when empty; the port
is the decimal value after the `:`, `None` when absent. -/
def urlHostPort (uri : String) : Option String × Option Nat :=
  match netlocOf uri with
  | none => (none, none)
  | some netloc =>
    let hostinfo := afterLastAt netloc.toList
    let (h, p) :=
      match breakFirst? ":" (String.mk hostinfo) with
      | none => (String.mk hostinfo, "")
      | some (h, p) => (h, p)
    ((if h = "" then none else some (pyLower h)),
     (if p ≠ "" ∧ p.toList.all Char.isDigit = true ∧ digitsToNat p.toList ≤ 65535
      then some (digitsToNat p.toList) else none))

/-- Model of `console_service._display_host_port` (lines 7-14): both components, or
`(None, None)` unless hostname and port are both truthy (a port of `0` is
falsy in Python). -/
def _display_host_port (display_uri : String) : Option String × Option Nat :=
  match urlHostPort display_uri with
  | (some h, some p) => if p ≠ 0 then (some h, some p) else (none, none)
  | _ => (none, none)

/-- Line 28: substitute the host's known reachable address when the
reported display host is `None`, `127.0.0.1`, `::1` or `localhost`. -/
def effectiveVncHost (host_address : String) (display_host : Option String) : String :=
  if display_host = none ∨ display_host = some "127.0.0.1" ∨
     display_host = some "::1" ∨ display_host = some "localhost"
  then host_address
  else display_host.getD ""

/-- Model of `urlencode` modelled without percent-escaping (none of the claims turn
on escaping). -/
def renderQuery (q : List (String × String)) : String :=
  String.intercalate "&" (q.map fun kv => kv.1 ++ "=" ++ kv.2)

/-- Result of `build_console_urls`: the minted ticket, both query-parameter
lists (in insertion order, as in the Python dicts), the composed URLs and
the metadata dict. -/
structure ConsoleUrls where
  ticket : String
  wsQuery : List (String × String)
  wsUrl : String
  viewerQuery : List (String × String)
  novncUrl : String
  vncHostMeta : String
  vncPortMeta : String
  deriving DecidableEq, Repr

/-- Model of `console_service.build_console_urls` (lines 17-52); the `uuid4` ticket
is the parameter `ticket`. -/
def build_console_urls (novnc_base_url novnc_ws_base host_id vm_id host_address
    display_uri ticket : String) : ConsoleUrls :=
  let dp := _display_host_port display_uri
  let effective_host := effectiveVncHost host_address dp.1
  let extra : List (String × String) :=
    if effective_host ≠ "" ∧ dp.2 ≠ none then
      [("vnc_host", effective_host), ("vnc_port", toString (dp.2.getD 0))]
    else []
  let ws_query := [("host_id", host_id), ("vm_id", vm_id), ("ticket", ticket)] ++ extra
  let ws_url := novnc_ws_base ++ "?" ++ renderQuery ws_query
  let viewer_extra : List (String × String) :=
    if effective_host ≠ "" ∧ dp.2 ≠ none then
      [("host", effective_host), ("port", toString (dp.2.getD 0))]
    else []
  let viewer_query :=
    [("host_id", host_id), ("vm_id", vm_id), ("ticket", ticket), ("path", ws_url),
     ("autoconnect", "1"), ("resize", "remote")] ++ viewer_extra
  let novnc_url := novnc_base_url ++ "?" ++ renderQuery viewer_query
  { ticket := ticket
    wsQuery := ws_query
    wsUrl := ws_url
    viewerQuery := viewer_query
    novncUrl := novnc_url
    vncHostMeta := effective_host
    vncPortMeta := match dp.2 with | some p => toString p | none => "" }

/-- An entry of the `CONSOLE_SESSIONS` history (`main.py` lines 1157-1167).
The source stores `created_at` as an ISO string and re-parses it on every
scan (fallback `0.0`); the model stores the parsed timestamp directly. -/
structure ConsoleSession where
  session_id : String
  host_id : String
  vm_id : String
  ticket : String
  novnc_url : String
  display_uri : String
  vnc_host : String
  vnc_port : String
  created_ts : ℚ
  deriving DecidableEq, Repr

/-- The scan predicate of `vm_console` (lines 1131-1139): same host and VM,
age within the TTL, non-empty viewer URL. -/
def sessionMatches (ttl now : ℚ) (host_id vm_id : String) (item : ConsoleSession) : Bool :=
  item.host_id == host_id && item.vm_id == vm_id &&
    decide (now - item.created_ts ≤ ttl) && item.novnc_url != ""

/-- Model of `ConsoleTicketResponse` as returned by `vm_console`. -/
structure TicketResponse where
  host_id : String
  vm_id : String
  ticket : String
  noVNC_url : String
  deriving DecidableEq, Repr

/-- Model of `main.vm_console` (lines 1126-1176): reuse the first matching fresh
session verbatim; otherwise fetch the display URI (failure propagating),
compose URLs with a fresh `uuid4` ticket, push the new session at the front
of the history and trim it to 200 entries. -/
def vm_console (sessions : List ConsoleSession) (ttl now : ℚ)
    (host_id vm_id host_address : String)
    (console_info : Except String String)
    (fresh_ticket fresh_session_id novnc_base novnc_ws : String) :
    Except String (TicketResponse × List ConsoleSession) :=
  match sessions.find? (sessionMatches ttl now host_id vm_id) with
  | some item => .ok (⟨host_id, vm_id, item.ticket, item.novnc_url⟩, sessions)
  | none => do
    let display_uri ← console_info
    let u := build_console_urls novnc_base novnc_ws host_id vm_id host_address
      display_uri fresh_ticket
    let s : ConsoleSession :=
      { session_id := fresh_session_id
        host_id := host_id
        vm_id := vm_id
        ticket := u.ticket
        novnc_url := u.novncUrl
        display_uri := display_uri
        vnc_host := u.vncHostMeta
        vnc_port := u.vncPortMeta
        created_ts := now }
    .ok (⟨host_id, vm_id, u.ticket, u.novncUrl⟩, (s :: sessions).take 200)

/-! ## Inventory Cache: `LibvirtCacheStore` (`libvirt_cache.py`)

The `host_libvirt_cache` table is a host-id-keyed map of rows; the fetcher
(`_libvirt_call`, which wraps every `LibvirtRemoteError` into an
`HTTPException`) is an oracle from the operation name to the serialized
collection or the exception detail.  `json.dumps` on write and `json.loads`
on read are applied to the same data, so the model carries the serialized
representation itself.  `time.time()` reads are parameters: `get` reads the
clock once for the TTL check (line 74) and `refresh` reads it again for the
row timestamp (line 40). -/

/-- One row of `host_libvirt_cache`. -/
structure CacheRow where
  vms_json : String
  networks_json : String
  images_json : String
  pools_json : String
  updated_at : ℚ
  last_error : Option String
  last_success_at : Option ℚ
  deriving DecidableEq, Repr

/-- The table, keyed by host id. -/
def CacheDb : Type := String → Option CacheRow

/-- A value of one of the response dicts `get` / `refresh` build. -/
inductive CVal where
  | str (s : String)
  | jsonVal (j : String)
  | num (q : ℚ)
  | null
  deriving DecidableEq, Repr

/-- Model of `float(x) if x else None` applied to a nullable float column: Python's
truthiness also maps `0.0` to `None` (lines 82, 102). -/
def floatOrNull (q : Option ℚ) : CVal :=
  match q with
  | some v => if v = 0 then CVal.null else CVal.num v
  | none => CVal.null

/-- A nullable text column passed through verbatim (line 81). -/
def textOrNull (s : Option String) : CVal :=
  match s with
  | some v => CVal.str v
  | none => CVal.null

/-- The fetcher `_libvirt_call` restricted to one host: operation name to
serialized collection or `HTTPException` detail. -/
def Fetch : Type := String → Except String String

/-- The `cache = miss` dict of line 65. -/
def missDict (vms networks images pools : String) (now : ℚ) : List (String × CVal) :=
  [("vms", CVal.jsonVal vms), ("networks", CVal.jsonVal networks),
   ("images", CVal.jsonVal images), ("pools", CVal.jsonVal pools),
   ("updated_at", CVal.num now), ("cache", CVal.str "miss")]

/-- Model of `LibvirtCacheStore.refresh` (lines 35-65): fetch the four collections
(any failure propagating before any write), then atomically upsert the row
with `last_error = NULL` and `last_success_at = updated_at = now`, and
return the `cache = miss` dict of line 65. -/
def refresh (db : CacheDb) (host_id : String) (fetch : Fetch) (now : ℚ) :
    Except String (CacheDb × List (String × CVal)) := do
  let vms ← fetch "list_vms"
  let networks ← fetch "list_networks"
  let images ← fetch "list_images"
  let pools ← fetch "list_storage_pools"
  let row : CacheRow :=
    { vms_json := vms
      networks_json := networks
      images_json := images
      pools_json := pools
      updated_at := now
      last_error := none
      last_success_at := some now }
  pure (fun h => if h = host_id then some row else db h,
    missDict vms networks images pools now)

/-- The `cache = hit` dict of lines 75-84. -/
def hitDict (row : CacheRow) : List (String × CVal) :=
  [("vms", CVal.jsonVal row.vms_json), ("networks", CVal.jsonVal row.networks_json),
   ("images", CVal.jsonVal row.images_json), ("pools", CVal.jsonVal row.pools_json),
   ("updated_at", CVal.num row.updated_at),
   ("last_error", textOrNull row.last_error),
   ("last_success_at", floatOrNull row.last_success_at),
   ("cache", CVal.str "hit")]

/-- The `cache = stale` dict of lines 95-104, built from the prior row and
the new error detail. -/
def staleDict (row : CacheRow) (detail : String) : List (String × CVal) :=
  [("vms", CVal.jsonVal row.vms_json), ("networks", CVal.jsonVal row.networks_json),
   ("images", CVal.jsonVal row.images_json), ("pools", CVal.jsonVal row.pools_json),
   ("updated_at", CVal.num row.updated_at),
   ("last_error", CVal.str detail),
   ("last_success_at", floatOrNull row.last_success_at),
   ("cache", CVal.str "stale")]

/-- Model of `LibvirtCacheStore.get` (lines 67-106).  `now` is the `time.time()`
of the TTL check (line 74); `nowR` is the `time.time()` a successful
refresh stamps (line 40). -/
def cacheGet (ttl : ℚ) (db : CacheDb) (host_id : String) (fetch : Fetch)
    (now nowR : ℚ) (force_refresh : Bool) :
    Except String (CacheDb × List (String × CVal)) :=
  match db host_id with
  | some row =>
    if force_refresh = false ∧ now - row.updated_at ≤ ttl then
      .ok (db, hitDict row)
    else
      match refresh db host_id fetch nowR with
      | .ok r => .ok r
      | .error detail =>
        let newRow := { row with last_error := some detail }
        .ok (fun h => if h = host_id then some newRow else db h, staleDict row detail)
  | none =>
    match refresh db host_id fetch nowR with
    | .ok r => .ok r
    | .error detail => .error detail

/-! ## Concrete fixtures (inputs used by the witness theorems) -/

/-- An oracle for one host with a single domain `vm1`, whose network
sub-query fails. -/
def execFixture : Exec := fun args =>
  if args = ["list", "--all", "--name"] then .ok "vm1"
  else if args = ["dominfo", "vm1"] then
    .ok "Id:  7\nName:  vm1\nCPU(s):  2\nMax memory:  2097152 KiB\nState:  running\n"
  else .error "libvirt call failed: boom"

/-- An oracle where every invocation fails. -/
def execAllFail : Exec := fun _ => .error "libvirt call failed: boom"

/-- An oracle that resolves volume paths in pool `default` and accepts
`define`. -/
def execVolPath : Exec := fun args =>
  if args = ["vol-path", "ubuntu.qcow2", "--pool", "default"] then
    .ok "/var/lib/libvirt/images/ubuntu.qcow2"
  else if args = ["vol-path", "plainname", "--pool", "default"] then
    .ok "/var/lib/libvirt/images/plainname"
  else if args = ["define", "/tmp/dom.xml"] then .ok "Domain defined"
  else .error "libvirt call failed: no such volume"

/-- A fetcher where every collection succeeds. -/
def fetchOk : Fetch := fun op => .ok ("[" ++ op ++ "]")

/-- A fetcher whose first collection fetch fails. -/
def fetchFail : Fetch := fun _ => .error "libvirt call failed: boom"

/-- An empty cache table. -/
def dbEmpty : CacheDb := fun _ => none

/-- A cache row for host `h1` written at time 50. -/
def rowH1 : CacheRow :=
  { vms_json := "[v]", networks_json := "[n]", images_json := "[i]",
    pools_json := "[p]", updated_at := 50, last_error := none,
    last_success_at := some 50 }

/-- A one-row cache table holding `rowH1` under host `h1`. -/
def dbH1 : CacheDb := fun h => if h = "h1" then some rowH1 else none

/-- A stored console session for `(h1, vm1)` created at time 0. -/
def sessFixture : ConsoleSession :=
  { session_id := "sid-0", host_id := "h1", vm_id := "vm1", ticket := "ticket-0",
    novnc_url := "/console/noVNC/viewer?x=1", display_uri := "vnc://127.0.0.1:5900",
    vnc_host := "10.0.0.5", vnc_port := "5900", created_ts := 0 }

/-! ## Helper lemmas -/

/-- The conserved quantity of the semaphore protocol: permits plus held
slots (idle or running) always equal the semaphore size. -/
theorem semReach_conserved {n m : Nat} {s : SemState} (h : SemReach n m s) :
    s.permits + s.acquired + s.running = n := by
  induction h with
  | init => rfl
  | step _ hs ih => cases hs <;> simp_all <;> omega

/-- Attempt-count bound of the `_run` loop: at most the remaining attempts. -/
theorem runLoop_attempts_le (oracle : Nat → ProcOutcome) (attempts : Nat) :
    ∀ attempt, attempt < attempts →
      (runLoop oracle attempts attempt).attemptsUsed ≤ attempts - attempt := by
  intro attempt
  induction attempt using runLoop.induct oracle attempts with
  | case1 x a hx => intro h; rw [runLoop, hx]; simp only; omega
  | case2 x hx => intro h; rw [runLoop, hx]; simp only; omega
  | case3 x hx => intro h; rw [runLoop, hx]; simp only; omega
  | case4 x a hx out hcond ih =>
    intro h
    rw [runLoop, hx]
    simp only [dif_pos hcond]
    have h2 := ih (by omega)
    omega
  | case5 x a hx out hcond =>
    intro h
    rw [runLoop, hx]
    simp only [dif_neg hcond]
    omega

/-- In the `_run` loop, sleeps are exactly one fewer than subprocess
invocations: one sleep precedes every retry. -/
theorem runLoop_sleeps_succ (oracle : Nat → ProcOutcome) (attempts : Nat) :
    ∀ attempt,
      (runLoop oracle attempts attempt).sleeps + 1 =
        (runLoop oracle attempts attempt).attemptsUsed := by
  intro attempt
  induction attempt using runLoop.induct oracle attempts with
  | case1 x a hx => rw [runLoop, hx]
  | case2 x hx => rw [runLoop, hx]
  | case3 x hx => rw [runLoop, hx]
  | case4 x a hx out hcond ih =>
    rw [runLoop, hx]
    simp only [dif_pos hcond]
    omega
  | case5 x a hx out hcond =>
    rw [runLoop, hx]
    simp only [dif_neg hcond]

/-- Bind on a successful `Except` reduces to the continuation. -/
theorem exceptOkBind {α β γ : Type} (a : α) (f : α → Except γ β) :
    (Except.ok a >>= f) = f a := rfl

/-- Bind on a failed `Except` short-circuits. -/
theorem exceptErrBind {α β γ : Type} (g : γ) (f : α → Except γ β) :
    ((Except.error g : Except γ α) >>= f) = Except.error g := rfl

/-- A `ProcessFailure` without the fork-exhaustion signature ends the loop
immediately. -/
theorem runLoop_no_mark (oracle : Nat → ProcOutcome) (attempts attempt : Nat) (raw : String)
    (h : oracle attempt = ProcOutcome.procFailure raw)
    (hm : strContains (procOutput raw) forkMarker = false) :
    runLoop oracle attempts attempt =
      ⟨.error (.failed (procOutput raw)), 1, 0⟩ := by
  rw [runLoop, h]
  simp [hm]

/-- When every attempt fails with the fork-exhaustion signature, the loop
runs all remaining attempts and surfaces the failure. -/
theorem runLoop_all_fork (oracle : Nat → ProcOutcome) (attempts : Nat) (raw : String)
    (hmark : strContains (procOutput raw) forkMarker = true)
    (hall : ∀ i, oracle i = ProcOutcome.procFailure raw) :
    ∀ attempt, attempt < attempts →
      (runLoop oracle attempts attempt).result = .error (.failed (procOutput raw)) ∧
      (runLoop oracle attempts attempt).attemptsUsed = attempts - attempt := by
  intro attempt
  induction attempt using runLoop.induct oracle attempts with
  | case1 x a hx => rw [hall x] at hx; exact absurd hx (by simp)
  | case2 x hx => rw [hall x] at hx; exact absurd hx (by simp)
  | case3 x hx => rw [hall x] at hx; exact absurd hx (by simp)
  | case4 x a hx out hcond ih =>
    intro h
    have hax : a = raw := by
      have h2 := (hall x).symm.trans hx
      injection h2 with h3
      exact h3.symm
    subst hax
    rw [runLoop, hx]
    simp only [dif_pos hcond]
    have h2 := ih (by omega)
    refine ⟨h2.1, ?_⟩
    simp only [h2.2]
    omega
  | case5 x a hx out hcond =>
    intro h
    have hax : a = raw := by
      have h2 := (hall x).symm.trans hx
      injection h2 with h3
      exact h3.symm
    subst hax
    have hx2 : ¬ x < attempts - 1 := fun hlt => hcond ⟨hmark, hlt⟩
    rw [runLoop, hx]
    simp only [dif_neg hcond]
    exact ⟨trivial, by omega⟩

/-! ## Claim theorems -/

/-- C2: for every Executor invocation, only a `ProcessFailure` whose output
text contains the fork-exhaustion marker is retried, up to `retry_count`
additional attempts with one sleep between consecutive attempts; a
`ProcessFailure` without that signature, a `ToolNotInstalled`, and a
`Timeout` each surface immediately with zero retries. -/
theorem C2_retry_only_fork_signature (retry_count : Nat) (oracle : Nat → ProcOutcome) :
    (runAttempts retry_count oracle).attemptsUsed ≤ retry_count + 1 ∧
    (runAttempts retry_count oracle).sleeps + 1 = (runAttempts retry_count oracle).attemptsUsed ∧
    (oracle 0 = ProcOutcome.toolMissing →
      (runAttempts retry_count oracle).result = .error .notInstalled ∧
      (runAttempts retry_count oracle).attemptsUsed = 1 ∧
      (runAttempts retry_count oracle).sleeps = 0) ∧
    (oracle 0 = ProcOutcome.timedOut →
      (runAttempts retry_count oracle).result = .error .outOfTime ∧
      (runAttempts retry_count oracle).attemptsUsed = 1 ∧
      (runAttempts retry_count oracle).sleeps = 0) ∧
    (∀ raw, oracle 0 = ProcOutcome.procFailure raw →
      strContains (procOutput raw) forkMarker = false →
      (runAttempts retry_count oracle).result = .error (.failed (procOutput raw)) ∧
      (runAttempts retry_count oracle).attemptsUsed = 1 ∧
      (runAttempts retry_count oracle).sleeps = 0) ∧
    (∀ raw, strContains (procOutput raw) forkMarker = true →
      (∀ i, oracle i = ProcOutcome.procFailure raw) →
      (runAttempts retry_count oracle).result = .error (.failed (procOutput raw)) ∧
      (runAttempts retry_count oracle).attemptsUsed = retry_count + 1 ∧
      (runAttempts retry_count oracle).sleeps = retry_count) := by
  refine ⟨?_, runLoop_sleeps_succ oracle (retry_count + 1) 0, ?_, ?_, ?_, ?_⟩
  · have h := runLoop_attempts_le oracle (retry_count + 1) 0 (by omega)
    simpa [runAttempts] using h
  · intro h
    simp only [runAttempts]
    rw [runLoop, h]
    exact ⟨rfl, rfl, rfl⟩
  · intro h
    simp only [runAttempts]
    rw [runLoop, h]
    exact ⟨rfl, rfl, rfl⟩
  · intro raw h hm
    have hres := runLoop_no_mark oracle (retry_count + 1) 0 raw h hm
    simp only [runAttempts, hres]
    exact ⟨trivial, trivial, trivial⟩
  · intro raw hmark hall
    have h := runLoop_all_fork oracle (retry_count + 1) raw hmark hall 0 (by omega)
    have hs := runLoop_sleeps_succ oracle (retry_count + 1) 0
    refine ⟨h.1, by simpa [runAttempts] using h.2, ?_⟩
    simp only [runAttempts] at *
    omega

/-- Witness for C2: three fork-exhaustion failures in a row with
`retry_count = 2` consume all three attempts with two sleeps. -/
theorem C2_retry_only_fork_signature_witness :
    (runAttempts 2 (fun _ => ProcOutcome.procFailure "cannot fork child process")).attemptsUsed = 3 ∧
    (runAttempts 2 (fun _ => ProcOutcome.procFailure "cannot fork child process")).sleeps = 2 := by
  have h := (C2_retry_only_fork_signature 2
      (fun _ => ProcOutcome.procFailure "cannot fork child process")).2.2.2.2.2
    "cannot fork child process" (by decide) (fun _ => rfl)
  exact ⟨h.2.1, h.2.2⟩

/-- C4: with the semaphore sized to `max_concurrency = n` and `2 n`
concurrent callers, every reachable state of the `_run` protocol has at
most `n` external processes running: the permit is taken before every
spawn and given back on every exit path, so spawned-and-running never
exceeds the permit count. -/
theorem C4_semaphore_bounds_inflight (n : Nat) (s : SemState)
    (h : SemReach n (2 * n) s) : s.running ≤ n := by
  have hc := semReach_conserved h
  omega

/-- Witness for C4: with `n = 2` and four callers, the state after one
acquire and one spawn is reachable and satisfies the bound. -/
theorem C4_semaphore_bounds_inflight_witness :
    (SemState.mk 1 3 0 1).running ≤ 2 :=
  C4_semaphore_bounds_inflight 2 _
    (SemReach.step
      (SemReach.step SemReach.init (SemStep.acquireOk ⟨2, 4, 0, 0⟩ (by decide) (by decide)))
      (SemStep.spawn ⟨1, 3, 1, 0⟩ (by decide)))

/-- C5: for every VM detail text, `list_vms` extracts CPU count and
max-memory by pattern match with default 0 when the pattern is absent,
converts memory from KiB to MB (integer division by 1024), classifies the
power state by substring precedence `running` > `paused` > else `stopped`,
and on failure of the `domiflist` sub-query returns the record with an
empty networks list instead of aborting; no field-level parse miss makes
the call fail. -/
theorem C5_vm_parse_defaults (exec : Exec) (uri now name info e : String)
    (hlist : exec ["list", "--all", "--name"] = .ok name)
    (hsplit : ((splitLines name).map pyStrip).filter (· ≠ "") = [name])
    (hinfo : exec ["dominfo", name] = .ok info)
    (hnet : exec ["domiflist", name] = .error e) :
    ∃ row : VmRow, list_vms exec uri now = .ok [row] ∧
      row.networks = [] ∧
      row.cpu_cores = (searchCpu info).getD 0 ∧
      (searchCpu info = none → row.cpu_cores = 0) ∧
      row.memory_mb = (searchMemKib info).getD 0 / 1024 ∧
      (searchMemKib info = none → row.memory_mb = 0) ∧
      (strContains (stateRawOf info) "running" = true → row.power_state = "running") ∧
      (strContains (stateRawOf info) "running" = false →
        strContains (stateRawOf info) "paused" = true → row.power_state = "paused") ∧
      (strContains (stateRawOf info) "running" = false →
        strContains (stateRawOf info) "paused" = false → row.power_state = "stopped") := by
  refine ⟨{ vm_id := name, name := name, cpu_cores := (searchCpu info).getD 0,
            memory_mb := (searchMemKib info).getD 0 / 1024,
            image := "libvirt:" ++ name,
            power_state := powerOf (stateRawOf info),
            networks := [], labels := [("executor", "libvirt-direct")],
            annotations_map := [("libvirt_uri", uri)], created_at := now },
    ?_, rfl, rfl, fun h => by simp [h], rfl, fun h => by simp [h], ?_, ?_, ?_⟩
  · simp only [list_vms, hlist, exceptOkBind]
    rw [hsplit]
    rw [List.mapM_cons, List.mapM_nil]
    rw [vmRowFor, hinfo]
    simp only [exceptOkBind, hnet]
    rfl
  · intro h; simp [powerOf, h]
  · intro h1 h2; simp [powerOf, h1, h2]
  · intro h1 h2; simp [powerOf, h1, h2]

/-- Witness for C5: the fixture host lists one domain whose interface query
fails; the record still comes back, with two CPUs, 2048 MB and power state
`running`. -/
theorem C5_vm_parse_defaults_witness :
    ∃ row : VmRow, list_vms execFixture "qemu+ssh://h1/system" "t0" = .ok [row] ∧
      row.networks = [] ∧
      row.cpu_cores =
        (searchCpu "Id:  7\nName:  vm1\nCPU(s):  2\nMax memory:  2097152 KiB\nState:  running\n").getD 0 ∧
      (searchCpu "Id:  7\nName:  vm1\nCPU(s):  2\nMax memory:  2097152 KiB\nState:  running\n" = none →
        row.cpu_cores = 0) ∧
      row.memory_mb =
        (searchMemKib "Id:  7\nName:  vm1\nCPU(s):  2\nMax memory:  2097152 KiB\nState:  running\n").getD 0 / 1024 ∧
      (searchMemKib "Id:  7\nName:  vm1\nCPU(s):  2\nMax memory:  2097152 KiB\nState:  running\n" = none →
        row.memory_mb = 0) ∧
      (strContains (stateRawOf "Id:  7\nName:  vm1\nCPU(s):  2\nMax memory:  2097152 KiB\nState:  running\n") "running" = true →
        row.power_state = "running") ∧
      (strContains (stateRawOf "Id:  7\nName:  vm1\nCPU(s):  2\nMax memory:  2097152 KiB\nState:  running\n") "running" = false →
        strContains (stateRawOf "Id:  7\nName:  vm1\nCPU(s):  2\nMax memory:  2097152 KiB\nState:  running\n") "paused" = true →
        row.power_state = "paused") ∧
      (strContains (stateRawOf "Id:  7\nName:  vm1\nCPU(s):  2\nMax memory:  2097152 KiB\nState:  running\n") "running" = false →
        strContains (stateRawOf "Id:  7\nName:  vm1\nCPU(s):  2\nMax memory:  2097152 KiB\nState:  running\n") "paused" = false →
        row.power_state = "stopped") :=
  C5_vm_parse_defaults execFixture "qemu+ssh://h1/system" "t0" "vm1"
    "Id:  7\nName:  vm1\nCPU(s):  2\nMax memory:  2097152 KiB\nState:  running\n"
    "libvirt call failed: boom" rfl (by decide) rfl rfl

/-- C6: image references resolve as `pool::volume` via a volume-path lookup
in that pool, as an absolute path to themselves, and as a bare name via a
volume-path lookup in the configured default pool; a failed lookup degrades
to the empty path in every case, and `create_vm` then still defines the VM,
with no disk device, instead of aborting. -/
theorem C6_disk_source_resolution (exec : Exec) (default_pool tmpName nm network : String)
    (cpu mem : Nat) :
    (∀ img pool vol, pyStrip img = img → img ≠ "" →
      strContains img "::" = true → partitionAt img "::" = (pool, vol) →
      pool ≠ "" → vol ≠ "" →
      _disk_source_from_image exec default_pool img =
        (match exec ["vol-path", vol, "--pool", pool] with
         | .ok p => p
         | .error _ => "")) ∧
    (∀ img, pyStrip img = img → img ≠ "" → strContains img "::" = false →
      pyStartsWith img "/" = true →
      _disk_source_from_image exec default_pool img = img) ∧
    (∀ img, pyStrip img = img → img ≠ "" → strContains img "::" = false →
      pyStartsWith img "/" = false →
      _disk_source_from_image exec default_pool img =
        (match exec ["vol-path", img, "--pool", default_pool] with
         | .ok p => p
         | .error _ => "")) ∧
    (∀ img out, _disk_source_from_image exec default_pool img = "" →
      exec ["define", tmpName] = .ok out →
      create_vm exec default_pool tmpName nm cpu mem img network =
        .ok { vm_id := nm, name := nm, cpu_cores := cpu, memory_mb := mem,
              image := img, power_state := "stopped", networks := [network],
              disk_source := none, hasDiskDevice := false }) := by
  refine ⟨?_, ?_, ?_, ?_⟩
  · intro img pool vol hstrip hne hcc hpart hp hv
    simp only [_disk_source_from_image, hstrip, if_neg hne, hcc, if_true, hpart]
    simp [hp, hv]
  · intro img hstrip hne hcc habs
    simp [_disk_source_from_image, hstrip, hne, hcc, diskSourceTail, habs]
  · intro img hstrip hne hcc habs
    simp [_disk_source_from_image, hstrip, hne, hcc, diskSourceTail, habs]
  · intro img out hd hdef
    simp [create_vm, hd, hdef, exceptOkBind]

/-- Witness for C6: all three reference shapes resolve against the volume
fixture, and a dangling bare name still yields a defined VM with no
disk. -/
theorem C6_disk_source_resolution_witness :
    _disk_source_from_image execVolPath "default" "default::ubuntu.qcow2" =
      "/var/lib/libvirt/images/ubuntu.qcow2" ∧
    _disk_source_from_image execVolPath "default" "/abs/path.qcow2" = "/abs/path.qcow2" ∧
    _disk_source_from_image execVolPath "default" "plainname" =
      "/var/lib/libvirt/images/plainname" ∧
    create_vm execVolPath "default" "/tmp/dom.xml" "vmx" 2 2048 "missing.img" "default" =
      .ok { vm_id := "vmx", name := "vmx", cpu_cores := 2, memory_mb := 2048,
            image := "missing.img", power_state := "stopped", networks := ["default"],
            disk_source := none, hasDiskDevice := false } := by
  obtain ⟨h1, h2, h3, h4⟩ :=
    C6_disk_source_resolution execVolPath "default" "/tmp/dom.xml" "vmx" "default" 2 2048
  refine ⟨?_, ?_, ?_, ?_⟩
  · exact (h1 "default::ubuntu.qcow2" "default" "ubuntu.qcow2" (by decide) (by decide)
      (by decide) (by decide) (by decide) (by decide)).trans rfl
  · exact h2 "/abs/path.qcow2" (by decide) (by decide) (by decide) (by decide)
  · exact (h3 "plainname" (by decide) (by decide) (by decide) (by decide)).trans rfl
  · exact h4 "missing.img" "Domain defined" rfl rfl

/-- C9 counterexample: with an Executor that fails every invocation,
`detach_iso` returns `detached = False` instead of propagating the failure,
so it is not true that every Executor failure during a write operation
propagates directly to the caller. -/
theorem C9_counterexample_detach_swallows :
    (∀ args, execAllFail args = .error "libvirt call failed: boom") ∧
    (detach_iso execAllFail "vm1").1 = .ok ⟨"vm1", false⟩ :=
  ⟨fun _ => rfl, rfl⟩

/-- C9 (amended): write operations issue each distinct invocation at most
once (no operation-level retry on top of the Executor); Executor failures
propagate directly for `resize`, `snapshot_create` and console-info, while
`attach_iso` falls back to a second command and raises only when both fail,
and `detach_iso` swallows both failures, returning `detached = False`. -/
theorem C9_write_ops_no_retry (exec : Exec) (host_id vm_id iso_path snap now : String)
    (b : Bool) (cpu mem : Nat) :
    (resize exec vm_id cpu mem).2.Nodup ∧
    (snapshot_create exec vm_id snap now).2.Nodup ∧
    (attach_iso exec vm_id iso_path b).2.Nodup ∧
    (detach_iso exec vm_id).2.Nodup ∧
    (∀ e, exec ["setvcpus", vm_id, toString cpu, "--live", "--config"] = .error e →
      (resize exec vm_id cpu mem).1 = .error e) ∧
    (∀ e o₁, exec ["setvcpus", vm_id, toString cpu, "--live", "--config"] = .ok o₁ →
      exec ["setmaxmem", vm_id, toString (mem * 1024), "--config"] = .error e →
      (resize exec vm_id cpu mem).1 = .error e) ∧
    (∀ e, exec ["snapshot-create-as", vm_id, snap, "--atomic"] = .error e →
      (snapshot_create exec vm_id snap now).1 = .error e) ∧
    (∀ (ttl n : ℚ) (ha t sid base ws e : String),
      vm_console [] ttl n host_id vm_id ha (.error e) t sid base ws = .error e) ∧
    (∀ e₁ e₂, exec ["change-media", vm_id, "hdb", "--insert", iso_path, "--live", "--config"] = .error e₁ →
      exec ["attach-disk", vm_id, iso_path, "hdb", "--type", "cdrom", "--mode", "readonly",
        "--live", "--config"] = .error e₂ →
      (attach_iso exec vm_id iso_path b).1 = .error ("failed to attach iso: " ++ e₂)) ∧
    (∀ e₁ e₂, exec ["change-media", vm_id, "hdb", "--eject", "--live", "--config"] = .error e₁ →
      exec ["detach-disk", vm_id, "hdb", "--live", "--config"] = .error e₂ →
      (detach_iso exec vm_id).1 = .ok ⟨vm_id, false⟩) := by
  refine ⟨?_, ?_, ?_, ?_, ?_, ?_, ?_, ?_, ?_, ?_⟩
  · unfold resize
    cases h1 : exec ["setvcpus", vm_id, toString cpu, "--live", "--config"] with
    | error e => simp [h1]
    | ok o1 =>
      cases h2 : exec ["setmaxmem", vm_id, toString (mem * 1024), "--config"] with
      | error e => simp [h1, h2]
      | ok o2 =>
        cases h3 : exec ["setmem", vm_id, toString (mem * 1024), "--live"] with
        | error e => simp [h1, h2, h3]
        | ok o3 => simp [h1, h2, h3]
  · unfold snapshot_create
    cases h1 : exec ["snapshot-create-as", vm_id, snap, "--atomic"] with
    | error e => simp [h1]
    | ok o => simp [h1]
  · unfold attach_iso
    cases h1 : exec ["change-media", vm_id, "hdb", "--insert", iso_path, "--live", "--config"] with
    | error e =>
      cases h2 : exec ["attach-disk", vm_id, iso_path, "hdb", "--type", "cdrom", "--mode",
          "readonly", "--live", "--config"] with
      | error e2 => simp [h1, h2]
      | ok o => simp [h1, h2]
    | ok o => simp [h1]
  · unfold detach_iso
    cases h1 : exec ["change-media", vm_id, "hdb", "--eject", "--live", "--config"] with
    | error e =>
      cases h2 : exec ["detach-disk", vm_id, "hdb", "--live", "--config"] with
      | error e2 => simp [h1, h2]
      | ok o => simp [h1, h2]
    | ok o => simp [h1]
  · intro e h
    simp [resize, h]
  · intro e o₁ h1 h2
    simp [resize, h1, h2]
  · intro e h
    simp [snapshot_create, h]
  · intro ttl n ha t sid base ws e
    simp [vm_console, List.find?, exceptErrBind]
  · intro e₁ e₂ h1 h2
    simp [attach_iso, h1, h2]
  · intro e₁ e₂ h1 h2
    simp [detach_iso, h1, h2]

/-- Witness for C9 (amended): with the all-failing Executor, `resize`
surfaces the failure, and the issued invocation logs of `resize` and
`detach_iso` are duplicate-free. -/
theorem C9_write_ops_no_retry_witness :
    (resize execAllFail "vm1" 2 2048).1 = .error "libvirt call failed: boom" ∧
    (resize execAllFail "vm1" 2 2048).2.Nodup ∧
    (detach_iso execAllFail "vm1").2.Nodup := by
  obtain ⟨hn1, _, _, hn4, hp, _⟩ :=
    C9_write_ops_no_retry execAllFail "h1" "vm1" "/iso/a.iso" "snap1" "t0" true 2 2048
  exact ⟨hp "libvirt call failed: boom" rfl, hn1, hn4⟩

/-- C8 counterexample: the wildcard display host `0.0.0.0` is not in the
substitution set `{None, 127.0.0.1, ::1, localhost}`, so the effective VNC
host stays `0.0.0.0` instead of becoming the host's reachable address, as
the claim would require. -/
theorem C8_counterexample_wildcard_kept :
    (_display_host_port "vnc://0.0.0.0:5900").1 = some "0.0.0.0" ∧
    effectiveVncHost "10.0.0.5" (_display_host_port "vnc://0.0.0.0:5900").1 = "0.0.0.0" ∧
    "0.0.0.0" ≠ "10.0.0.5" :=
  ⟨rfl, rfl, by decide⟩

/-- C8 (amended): the effective VNC host equals the host's known reachable
address whenever the reported display host is empty/unparsable, `127.0.0.1`,
`::1` or `localhost`; any other reported display host — wildcard addresses
included — is used as-is; the websocket query carries host id, VM id and
ticket, plus `vnc_host`/`vnc_port` exactly when the effective host is
non-empty and a display port was resolved. -/
theorem C8_console_url_composition (host_address : String) :
    (_display_host_port "" = (none, none)) ∧
    effectiveVncHost host_address none = host_address ∧
    effectiveVncHost host_address (some "127.0.0.1") = host_address ∧
    effectiveVncHost host_address (some "::1") = host_address ∧
    effectiveVncHost host_address (some "localhost") = host_address ∧
    (∀ h, h ≠ "127.0.0.1" → h ≠ "::1" → h ≠ "localhost" →
      effectiveVncHost host_address (some h) = h) ∧
    (∀ base ws host_id vm_id ticket display_uri,
      ("host_id", host_id) ∈
        (build_console_urls base ws host_id vm_id host_address display_uri ticket).wsQuery ∧
      ("vm_id", vm_id) ∈
        (build_console_urls base ws host_id vm_id host_address display_uri ticket).wsQuery ∧
      ("ticket", ticket) ∈
        (build_console_urls base ws host_id vm_id host_address display_uri ticket).wsQuery ∧
      ((∃ p, ("vnc_port", p) ∈
          (build_console_urls base ws host_id vm_id host_address display_uri ticket).wsQuery) ↔
        (effectiveVncHost host_address (_display_host_port display_uri).1 ≠ "" ∧
          (_display_host_port display_uri).2 ≠ none)) ∧
      ((∃ hh, ("vnc_host", hh) ∈
          (build_console_urls base ws host_id vm_id host_address display_uri ticket).wsQuery) ↔
        (effectiveVncHost host_address (_display_host_port display_uri).1 ≠ "" ∧
          (_display_host_port display_uri).2 ≠ none))) := by
  refine ⟨rfl, rfl, rfl, rfl, rfl, ?_, ?_⟩
  · intro h h1 h2 h3
    simp [effectiveVncHost, h1, h2, h3]
  · intro base ws host_id vm_id ticket display_uri
    refine ⟨by simp [build_console_urls], by simp [build_console_urls],
      by simp [build_console_urls], ?_, ?_⟩
    · by_cases hc : effectiveVncHost host_address (_display_host_port display_uri).1 ≠ "" ∧
          (_display_host_port display_uri).2 ≠ none
      · simp [build_console_urls, hc]
      · simp [build_console_urls, hc]
    · by_cases hc : effectiveVncHost host_address (_display_host_port display_uri).1 ≠ "" ∧
          (_display_host_port display_uri).2 ≠ none
      · simp [build_console_urls, hc]
      · simp [build_console_urls, hc]

/-- Witness for C8 (amended): a non-loopback display host is kept as-is. -/
theorem C8_console_url_composition_witness :
    effectiveVncHost "10.0.0.5" (some "192.168.7.9") = "192.168.7.9" :=
  (C8_console_url_composition "10.0.0.5").2.2.2.2.2.1 "192.168.7.9"
    (by decide) (by decide) (by decide)

/-- A composed viewer URL is never empty (it contains the `?` separator),
so a freshly stored session always passes the non-empty-URL reuse check. -/
theorem buildConsoleUrls_novnc_ne_empty (base ws host_id vm_id ha du t : String) :
    (build_console_urls base ws host_id vm_id ha du t).novncUrl ≠ "" := by
  simp only [build_console_urls]
  intro h
  have hlen := congrArg String.length h
  simp [String.length_append] at hlen
  exact absurd hlen.1.2 (by decide)

/-- When every stored session for the requested pair has outlived the TTL,
the reuse scan finds nothing. -/
theorem find_matches_none (ttl now : ℚ) (host_id vm_id : String)
    (sessions : List ConsoleSession)
    (hexp : ∀ item ∈ sessions, item.host_id = host_id → item.vm_id = vm_id →
      ttl < now - item.created_ts) :
    sessions.find? (sessionMatches ttl now host_id vm_id) = none := by
  rw [List.find?_eq_none]
  intro item hmem
  by_cases hh : item.host_id = host_id
  · by_cases hv : item.vm_id = vm_id
    · have hgt := hexp item hmem hh hv
      have hle : ¬ (now - item.created_ts ≤ ttl) := by linarith
      simp [sessionMatches, hh, hv, hle]
    · simp [sessionMatches, hv]
  · simp [sessionMatches, hh]

/-- C7: a console request that finds a stored session for the same
`(host, VM)` whose age is within the TTL and whose viewer URL is non-empty
returns that session unchanged, with the identical ticket; when every
stored session for the pair has outlived the TTL, the request mints the
fresh ticket (distinct from every stored one when the UUID is fresh) and
pushes the new session at the front of the history, trimmed to 200. -/
theorem C7_console_session_reuse (ttl now now₂ : ℚ)
    (host_id vm_id host_address display_uri t sid t₂ sid₂ base ws : String)
    (ci : Except String String) (rest sessions : List ConsoleSession) (s : ConsoleSession)
    (hhost : s.host_id = host_id) (hvm : s.vm_id = vm_id)
    (hfresh : now - s.created_ts ≤ ttl) (hurl : s.novnc_url ≠ "")
    (hexp : ∀ item ∈ sessions, item.host_id = host_id → item.vm_id = vm_id →
      ttl < now₂ - item.created_ts)
    (hdistinct : ∀ item ∈ sessions, item.ticket ≠ t₂) :
    vm_console (s :: rest) ttl now host_id vm_id host_address ci t sid base ws =
      .ok (⟨host_id, vm_id, s.ticket, s.novnc_url⟩, s :: rest) ∧
    vm_console sessions ttl now₂ host_id vm_id host_address (.ok display_uri) t₂ sid₂ base ws =
      .ok (⟨host_id, vm_id, t₂,
            (build_console_urls base ws host_id vm_id host_address display_uri t₂).novncUrl⟩,
        ({ session_id := sid₂, host_id := host_id, vm_id := vm_id, ticket := t₂,
           novnc_url :=
             (build_console_urls base ws host_id vm_id host_address display_uri t₂).novncUrl,
           display_uri := display_uri,
           vnc_host :=
             (build_console_urls base ws host_id vm_id host_address display_uri t₂).vncHostMeta,
           vnc_port :=
             (build_console_urls base ws host_id vm_id host_address display_uri t₂).vncPortMeta,
           created_ts := now₂ } :: sessions).take 200) ∧
    (∀ item ∈ sessions, t₂ ≠ item.ticket) := by
  refine ⟨?_, ?_, fun item hmem => (hdistinct item hmem).symm⟩
  · have hmatch : sessionMatches ttl now host_id vm_id s = true := by
      simp [sessionMatches, hhost, hvm, hfresh, hurl]
    simp [vm_console, List.find?_cons, hmatch]
  · have hnone := find_matches_none ttl now₂ host_id vm_id sessions hexp
    simp [vm_console, hnone, exceptOkBind, build_console_urls]

/-- Witness for C7: a fresh stored session at time 0 is reused verbatim at
time 10 with TTL 30, and at time 100 a new ticket is minted and pushed at
the front. -/
theorem C7_console_session_reuse_witness :
    vm_console [sessFixture] 30 10 "h1" "vm1" "10.0.0.5" (.ok "vnc://127.0.0.1:5900")
        "ticket-new" "sid-new" "/console/noVNC/viewer" "/console/noVNC/websockify" =
      .ok (⟨"h1", "vm1", sessFixture.ticket, sessFixture.novnc_url⟩, [sessFixture]) ∧
    vm_console [sessFixture] 30 100 "h1" "vm1" "10.0.0.5" (.ok "vnc://127.0.0.1:5900")
        "ticket-new" "sid-new" "/console/noVNC/viewer" "/console/noVNC/websockify" =
      .ok (⟨"h1", "vm1", "ticket-new",
            (build_console_urls "/console/noVNC/viewer" "/console/noVNC/websockify" "h1" "vm1"
              "10.0.0.5" "vnc://127.0.0.1:5900" "ticket-new").novncUrl⟩,
        ({ session_id := "sid-new", host_id := "h1", vm_id := "vm1", ticket := "ticket-new",
           novnc_url :=
             (build_console_urls "/console/noVNC/viewer" "/console/noVNC/websockify" "h1" "vm1"
               "10.0.0.5" "vnc://127.0.0.1:5900" "ticket-new").novncUrl,
           display_uri := "vnc://127.0.0.1:5900",
           vnc_host :=
             (build_console_urls "/console/noVNC/viewer" "/console/noVNC/websockify" "h1" "vm1"
               "10.0.0.5" "vnc://127.0.0.1:5900" "ticket-new").vncHostMeta,
           vnc_port :=
             (build_console_urls "/console/noVNC/viewer" "/console/noVNC/websockify" "h1" "vm1"
               "10.0.0.5" "vnc://127.0.0.1:5900" "ticket-new").vncPortMeta,
           created_ts := 100 } :: [sessFixture]).take 200) := by
  obtain ⟨h1, h2, _⟩ := C7_console_session_reuse 30 10 100 "h1" "vm1" "10.0.0.5"
    "vnc://127.0.0.1:5900" "ticket-new" "sid-new" "ticket-new" "sid-new"
    "/console/noVNC/viewer" "/console/noVNC/websockify" (.ok "vnc://127.0.0.1:5900")
    [] [sessFixture] sessFixture rfl rfl (by norm_num [sessFixture]) (by decide)
    (by intro item hmem hh hv
        simp only [List.mem_singleton] at hmem
        subst hmem
        norm_num [sessFixture])
    (by intro item hmem
        simp only [List.mem_singleton] at hmem
        subst hmem
        decide)
  exact ⟨h1, h2⟩

/-- C1: when the refresh attempt fails and a prior row exists, only the
row's `last_error` field is updated (the four stored collections,
`updated_at` and `last_success_at` are untouched), and the call returns the
prior collections with the stale marker and the new `last_error`; when the
refresh fails and no prior row exists, the failure propagates. -/
theorem C1_stale_fallback (ttl : ℚ) (db : CacheDb) (host_id : String) (fetch : Fetch)
    (now nowR : ℚ) (force : Bool) (detail : String)
    (hfail : refresh db host_id fetch nowR = .error detail) :
    (∀ row, db host_id = some row →
      (force = true ∨ ¬ (now - row.updated_at ≤ ttl)) →
      cacheGet ttl db host_id fetch now nowR force =
        .ok (fun h => if h = host_id then some { row with last_error := some detail }
              else db h,
             staleDict row detail) ∧
      (staleDict row detail).lookup "cache" = some (CVal.str "stale") ∧
      (staleDict row detail).lookup "last_error" = some (CVal.str detail) ∧
      (staleDict row detail).lookup "vms" = some (CVal.jsonVal row.vms_json) ∧
      (staleDict row detail).lookup "networks" = some (CVal.jsonVal row.networks_json) ∧
      (staleDict row detail).lookup "images" = some (CVal.jsonVal row.images_json) ∧
      (staleDict row detail).lookup "pools" = some (CVal.jsonVal row.pools_json) ∧
      (staleDict row detail).lookup "updated_at" = some (CVal.num row.updated_at) ∧
      ({ row with last_error := some detail }).vms_json = row.vms_json ∧
      ({ row with last_error := some detail }).networks_json = row.networks_json ∧
      ({ row with last_error := some detail }).images_json = row.images_json ∧
      ({ row with last_error := some detail }).pools_json = row.pools_json ∧
      ({ row with last_error := some detail }).updated_at = row.updated_at ∧
      ({ row with last_error := some detail }).last_success_at = row.last_success_at) ∧
    (db host_id = none → cacheGet ttl db host_id fetch now nowR force = .error detail) := by
  constructor
  · intro row hrow hbranch
    have hcond : ¬ (force = false ∧ now - row.updated_at ≤ ttl) := by
      rcases hbranch with h | h
      · rintro ⟨hf, _⟩; rw [h] at hf; cases hf
      · rintro ⟨_, hle⟩; exact h hle
    refine ⟨?_, rfl, rfl, rfl, rfl, rfl, rfl, rfl, rfl, rfl, rfl, rfl, rfl, rfl⟩
    simp only [cacheGet, hrow, if_neg hcond, hfail]
  · intro hnone
    simp only [cacheGet, hnone, hfail]

/-- Witness for C1: with the one-row table and an all-failing fetcher, a
forced `get` yields the stale dict and rewrites only `last_error`. -/
theorem C1_stale_fallback_witness :
    cacheGet 60 dbH1 "h1" fetchFail 100 100 true =
      .ok (fun h => if h = "h1" then
              some { rowH1 with last_error := some "libvirt call failed: boom" }
            else dbH1 h,
           staleDict rowH1 "libvirt call failed: boom") ∧
    (staleDict rowH1 "libvirt call failed: boom").lookup "cache" =
      some (CVal.str "stale") := by
  obtain ⟨h1, _⟩ :=
    C1_stale_fallback 60 dbH1 "h1" fetchFail 100 100 true "libvirt call failed: boom" rfl
  have h3 := h1 rowH1 rfl (Or.inl rfl)
  exact ⟨h3.1, h3.2.1⟩

/-- C3 counterexample: a successful forced refresh on an empty table
returns the miss dict, which carries no `last_error` and no
`last_success_at` entry at all — the claim's list of returned contract
fields does not hold for the miss response. -/
theorem C3_counterexample_miss_lacks_fields :
    (cacheGet 60 dbEmpty "h1" fetchOk 0 0 true).toOption.map
        (fun r => (r.2.lookup "cache", r.2.lookup "last_error", r.2.lookup "last_success_at")) =
      some (some (CVal.str "miss"), none, none) := rfl

/-- C3 (amended): a `get` that performs a refresh in which all four fetches
succeed atomically replaces the row with all four collections together,
clears `last_error`, sets `last_success_at = now`, and returns a response
carrying `vms`, `networks`, `images`, `pools`, `updated_at` and the miss
marker — but no `last_error` or `last_success_at` field (those appear only
on hit and stale responses). -/
theorem C3_refresh_replaces_row (ttl : ℚ) (db : CacheDb) (host_id : String) (fetch : Fetch)
    (now nowR : ℚ) (force : Bool) (vms nets imgs pools : String)
    (hv : fetch "list_vms" = .ok vms) (hn : fetch "list_networks" = .ok nets)
    (hi : fetch "list_images" = .ok imgs) (hp : fetch "list_storage_pools" = .ok pools)
    (hbranch : ∀ row, db host_id = some row → force = true ∨ ¬ (now - row.updated_at ≤ ttl)) :
    cacheGet ttl db host_id fetch now nowR force =
      .ok (fun h => if h = host_id then
              some { vms_json := vms, networks_json := nets, images_json := imgs,
                     pools_json := pools, updated_at := nowR, last_error := none,
                     last_success_at := some nowR }
            else db h,
           missDict vms nets imgs pools nowR) ∧
    (missDict vms nets imgs pools nowR).lookup "cache" = some (CVal.str "miss") ∧
    (missDict vms nets imgs pools nowR).lookup "vms" = some (CVal.jsonVal vms) ∧
    (missDict vms nets imgs pools nowR).lookup "networks" = some (CVal.jsonVal nets) ∧
    (missDict vms nets imgs pools nowR).lookup "images" = some (CVal.jsonVal imgs) ∧
    (missDict vms nets imgs pools nowR).lookup "pools" = some (CVal.jsonVal pools) ∧
    (missDict vms nets imgs pools nowR).lookup "updated_at" = some (CVal.num nowR) ∧
    (missDict vms nets imgs pools nowR).lookup "last_error" = none ∧
    (missDict vms nets imgs pools nowR).lookup "last_success_at" = none := by
  have hrefresh : refresh db host_id fetch nowR =
      .ok (fun h => if h = host_id then
              some { vms_json := vms, networks_json := nets, images_json := imgs,
                     pools_json := pools, updated_at := nowR, last_error := none,
                     last_success_at := some nowR }
            else db h,
           missDict vms nets imgs pools nowR) := by
    simp only [refresh, hv, hn, hi, hp, exceptOkBind]
    rfl
  refine ⟨?_, rfl, rfl, rfl, rfl, rfl, rfl, rfl, rfl⟩
  cases hdb : db host_id with
  | none => simp only [cacheGet, hdb, hrefresh]
  | some row =>
    have hcond : ¬ (force = false ∧ now - row.updated_at ≤ ttl) := by
      rcases hbranch row hdb with h | h
      · rintro ⟨hf, _⟩; rw [h] at hf; cases hf
      · rintro ⟨_, hle⟩; exact h hle
    simp only [cacheGet, hdb, if_neg hcond, hrefresh]

/-- Witness for C3 (amended): the forced refresh over the empty table with
the all-succeeding fetcher produces exactly the predicted row map and miss
dict. -/
theorem C3_refresh_replaces_row_witness :
    cacheGet 60 dbEmpty "h1" fetchOk 0 7 true =
      .ok (fun h => if h = "h1" then
              some { vms_json := "[list_vms]", networks_json := "[list_networks]",
                     images_json := "[list_images]", pools_json := "[list_storage_pools]",
                     updated_at := 7, last_error := none, last_success_at := some 7 }
            else dbEmpty h,
           missDict "[list_vms]" "[list_networks]" "[list_images]" "[list_storage_pools]" 7) ∧
    (missDict "[list_vms]" "[list_networks]" "[list_images]" "[list_storage_pools]" 7).lookup
      "last_error" = none :=
  ⟨(C3_refresh_replaces_row 60 dbEmpty "h1" fetchOk 0 7 true
      "[list_vms]" "[list_networks]" "[list_images]" "[list_storage_pools]"
      rfl rfl rfl rfl (fun row hrow => by cases hrow)).1,
   (C3_refresh_replaces_row 60 dbEmpty "h1" fetchOk 0 7 true
      "[list_vms]" "[list_networks]" "[list_images]" "[list_storage_pools]"
      rfl rfl rfl rfl (fun row hrow => by cases hrow)).2.2.2.2.2.2.2.1⟩

/-- C10: after a forced refresh fails while a prior row exists (recording
`last_error`, leaving `updated_at` unchanged), every later non-forced `get`
within the TTL of the original `updated_at` returns the hit dict carrying
the old collections and that non-null `last_error`, for every fetcher — the
backend is not contacted. -/
theorem C10_hit_carries_error (ttl : ℚ) (db : CacheDb) (host_id : String)
    (fetch₁ : Fetch) (now₁ nowR₁ : ℚ) (row : CacheRow) (detail : String)
    (hrow : db host_id = some row)
    (hfail : refresh db host_id fetch₁ nowR₁ = .error detail) :
    cacheGet ttl db host_id fetch₁ now₁ nowR₁ true =
      .ok (fun h => if h = host_id then some { row with last_error := some detail }
            else db h,
           staleDict row detail) ∧
    (∀ (fetch₂ : Fetch) (now₂ nowR₂ : ℚ), now₂ - row.updated_at ≤ ttl →
      cacheGet ttl
          (fun h => if h = host_id then some { row with last_error := some detail }
            else db h)
          host_id fetch₂ now₂ nowR₂ false =
        .ok (fun h => if h = host_id then some { row with last_error := some detail }
              else db h,
             hitDict { row with last_error := some detail })) ∧
    (hitDict { row with last_error := some detail }).lookup "last_error" =
      some (CVal.str detail) ∧
    (hitDict { row with last_error := some detail }).lookup "cache" =
      some (CVal.str "hit") ∧
    (hitDict { row with last_error := some detail }).lookup "vms" =
      some (CVal.jsonVal row.vms_json) ∧
    (hitDict { row with last_error := some detail }).lookup "updated_at" =
      some (CVal.num row.updated_at) := by
  refine ⟨?_, ?_, rfl, rfl, rfl, rfl⟩
  · have hcond : ¬ ((true : Bool) = false ∧ now₁ - row.updated_at ≤ ttl) := by
      rintro ⟨hf, _⟩; cases hf
    simp only [cacheGet, hrow, if_neg hcond, hfail]
  · intro fetch₂ now₂ nowR₂ hle
    have hdb1 : (fun h => if h = host_id then some { row with last_error := some detail }
        else db h) host_id = some { row with last_error := some detail } := by simp
    simp only [cacheGet, hdb1]
    simp [hle]

/-- Witness for C10: after the failed forced refresh over the one-row
table, a non-forced read at time 100 (50 after the stored `updated_at`,
within the 60-second TTL) hits and carries the recorded error, for the
all-succeeding fetcher in particular. -/
theorem C10_hit_carries_error_witness :
    cacheGet 60
        (fun h => if h = "h1" then
            some { rowH1 with last_error := some "libvirt call failed: boom" }
          else dbH1 h)
        "h1" fetchOk 100 100 false =
      .ok (fun h => if h = "h1" then
              some { rowH1 with last_error := some "libvirt call failed: boom" }
            else dbH1 h,
           hitDict { rowH1 with last_error := some "libvirt call failed: boom" }) ∧
    (hitDict { rowH1 with last_error := some "libvirt call failed: boom" }).lookup
      "last_error" = some (CVal.str "libvirt call failed: boom") := by
  obtain ⟨_, h2, h3, _⟩ :=
    C10_hit_carries_error 60 dbH1 "h1" fetchFail 100 100 rowH1
      "libvirt call failed: boom" rfl rfl
  exact ⟨h2 fetchOk 100 100 (by norm_num [rowH1]), h3⟩

end KvmDashboard
